import Mathlib

/-!
Shallow embedding of the capacity / voltage-drop engine of the sparkplan
repository (backend/tools/database.py, backend/agents/change_impact.py,
backend/agents/predictive.py), together with theorems settling the frozen
claims about it.

Conventions of the embedding:
* Python floats are modelled as exact rationals (ℚ).  Every arithmetic
  operation the engine performs (add, mul, div by nonzero, comparison,
  decimal rounding) is exact on the concrete inputs appearing below, so no
  floating-point rounding issue is in play for any claim.
* Python dict `.get(key, default)` on a possibly missing key is modelled by
  `Option` plus `Option.getD`.
* Fallible code (Python raising `ZeroDivisionError`) is modelled by
  `Option`: `none` is the raised exception.
* `round(x, n)` is modelled by `pyRound n x` below.  Python rounds exact
  ties to even while `round` here rounds ties up; no definition or claim in
  this development is ever evaluated at an exact tie, so the two agree on
  everything proved here.
-/

/-- Models Python `round(x, n)` (round to `n` decimal places).  Ties are
rounded half-up here whereas Python rounds half-to-even; no statement in this
file evaluates a rounding at an exact tie. -/
def pyRound (n : ℕ) (x : ℚ) : ℚ := ((round (x * 10 ^ n) : ℤ) : ℚ) / 10 ^ n

/-- Models the Python format specifier `f"\x7bx:.0f\x7d"` (no decimal
places), used by `_get_capacity_verdict` to embed numbers in the verdict
string.  Same tie caveat as `pyRound`; the claims only inspect the constant
prefix of verdict strings, never these digits. -/
def pyFmt0 (x : ℚ) : String := toString (round x)

/-- A circuit row as consumed by the engine (backend/tools/database.py).
`load_va`, `load_watts` and `pole` model the dict keys of the same names;
`none` is a missing key. -/
structure Circuit where
  load_va : Option ℚ
  load_watts : Option ℚ
  pole : Option ℚ

/-- Models `calculate_total_panel_load` (database.py line 149): the service-side
aggregation resolves each circuit as the dict get of load_va with default 0 — with NO
fallback to the watts field. -/
def calculate_total_panel_load (circuits : List Circuit) : ℚ :=
  (circuits.map (fun c => c.load_va.getD 0)).sum

/-- The per-panel load step of `get_panel_utilization` (database.py line
252): the dict get of load_va, defaulting to the dict get of load_watts with default 0 — load_va falling back to
the watts field. -/
def panel_current_load_va (circuits : List Circuit) : ℚ :=
  (circuits.map (fun c => c.load_va.getD (c.load_watts.getD 0))).sum

/-- The total service load computed by `get_service_utilization`
(database.py lines 181-184): the sum over all panels of
`calculate_total_panel_load` of the circuits of that panel.  A project is
modelled as the list of the circuit lists of its panels. -/
def service_total_load_va (panels : List (List Circuit)) : ℚ :=
  (panels.map calculate_total_panel_load).sum

/-- A panel row (dict) as consumed by `get_panel_utilization`; `none` models
a missing key, defaults are applied exactly where the source applies them. -/
structure Panel where
  name : Option String
  bus_rating : Option ℚ
  voltage : Option ℚ
  phase : Option ℚ
  spaces : Option ℚ

/-- Panel capacity in VA (database.py lines 256-259): bus_rating × voltage,
times the literal 1.732 for three-phase. -/
def panel_capacity_va (panel : Panel) : ℚ :=
  if panel.phase.getD 1 = 3 then
    panel.bus_rating.getD 200 * panel.voltage.getD 240 * (1732 / 1000)
  else panel.bus_rating.getD 200 * panel.voltage.getD 240

/-- The unrounded panel utilization percentage (database.py line 264),
guarded to 0 when capacity is not positive. -/
def panel_utilization_percent (panel : Panel) (circuits : List Circuit) : ℚ :=
  if 0 < panel_capacity_va panel then
    panel_current_load_va circuits / panel_capacity_va panel * 100
  else 0

/-- The result record of `get_panel_utilization` (database.py lines
266-283), field names as the dict keys. -/
structure PanelUtilization where
  panel_name : String
  bus_rating_amps : ℚ
  voltage : ℚ
  phases : ℚ
  capacity_va : ℚ
  current_load_va : ℚ
  current_load_amps : ℚ
  available_amps : ℚ
  utilization_percent : ℚ
  total_spaces : ℚ
  spaces_used : ℚ
  spaces_available : ℚ
  circuit_count : ℕ
  can_add_load : Bool
  status : String

/-- Models `get_panel_utilization` (database.py lines 227-283) on a fetched panel
row and its circuit list.  The status / can_add_load comparisons use the
unrounded local `utilization_percent`, while the reported percentage fields
are rounded to one decimal, exactly as in the source. -/
def get_panel_utilization (panel : Panel) (circuits : List Circuit) : PanelUtilization :=
  let bus_rating := panel.bus_rating.getD 200
  let voltage := panel.voltage.getD 240
  let phases := panel.phase.getD 1
  let max_spaces := panel.spaces.getD 42
  let total_load_va := panel_current_load_va circuits
  let total_poles_used := (circuits.map (fun c => c.pole.getD 1)).sum
  let current_load_amps := if 0 < voltage then total_load_va / voltage else 0
  let utilization_percent := panel_utilization_percent panel circuits
  { panel_name := panel.name.getD "Unknown"
    bus_rating_amps := bus_rating
    voltage := voltage
    phases := phases
    capacity_va := panel_capacity_va panel
    current_load_va := total_load_va
    current_load_amps := pyRound 1 current_load_amps
    available_amps := pyRound 1 (bus_rating - current_load_amps)
    utilization_percent := pyRound 1 utilization_percent
    total_spaces := max_spaces
    spaces_used := total_poles_used
    spaces_available := max_spaces - total_poles_used
    circuit_count := circuits.length
    can_add_load := decide (utilization_percent < 80)
    status :=
      if utilization_percent < 80 then "OK"
      else if utilization_percent < 100 then "WARNING"
      else "OVERLOADED" }

/-- The service-level state `check_service_capacity` works from, i.e. the
fields of the `get_service_utilization` result it reads (database.py lines
312-314): service size, voltage, phase count and aggregated total load. -/
structure ServiceInput where
  service_size : ℚ
  voltage : ℚ
  phases : ℚ
  total_load_va : ℚ

/-- Service capacity in VA (database.py lines 187-190): service_size ×
voltage, times the literal 1.732 for three-phase. -/
def service_capacity_va (s : ServiceInput) : ℚ :=
  if s.phases = 3 then s.service_size * s.voltage * (1732 / 1000)
  else s.service_size * s.voltage

/-- Current service utilization percent (database.py line 192), guarded to 0
when capacity is not positive. -/
def utilization_percent (s : ServiceInput) : ℚ :=
  if 0 < service_capacity_va s then s.total_load_va / service_capacity_va s * 100
  else 0

/-- Current load in amps (database.py line 315), guarded to 0 when voltage
is not positive. -/
def svc_current_load_amps (s : ServiceInput) : ℚ :=
  if 0 < s.voltage then s.total_load_va / s.voltage else 0

/-- Models `new_total_va` (database.py lines 318-319). -/
def new_total_va (s : ServiceInput) (additional_load_amps : ℚ) : ℚ :=
  s.total_load_va + additional_load_amps * s.voltage

/-- Models `new_total_amps` (database.py line 320). -/
def new_total_amps (s : ServiceInput) (additional_load_amps : ℚ) : ℚ :=
  svc_current_load_amps s + additional_load_amps

/-- Models `new_utilization` (database.py line 326), guarded to 0 when capacity is
not positive. -/
def new_utilization (s : ServiceInput) (additional_load_amps : ℚ) : ℚ :=
  if 0 < service_capacity_va s then
    new_total_va s additional_load_amps / service_capacity_va s * 100
  else 0

/-- Models `remaining_after_change` (database.py line 328). -/
def remaining_after_change (s : ServiceInput) (additional_load_amps : ℚ) : ℚ :=
  s.service_size - new_total_amps s additional_load_amps

/-- The fixed ladder of standard service sizes (database.py line 357). -/
def standard_sizes : List ℚ :=
  [100, 125, 150, 200, 225, 320, 400, 600, 800, 1000, 1200]

/-- Models `_get_recommended_service_size` (database.py lines 355-363): first
ladder entry at least `required_amps / 0.8`, else 1200. -/
def _get_recommended_service_size (required_amps : ℚ) : ℚ :=
  let required_service := required_amps / (8 / 10)
  (standard_sizes.find? (fun size => decide (required_service ≤ size))).getD 1200

/-- Models `_get_capacity_verdict` (database.py lines 366-375): the human-readable
verdict string, with the numbers embedded by the `:.0f` format. -/
def _get_capacity_verdict (utilization : ℚ) (remaining_amps : ℚ) : String :=
  if 100 < utilization then
    "REJECT - Service overloaded by " ++
      (pyFmt0 |remaining_amps| ++ "A. Service upgrade required.")
  else if 80 < utilization then
    "WARNING - Service at " ++
      (pyFmt0 utilization ++
        ("% utilization. Only " ++
          (pyFmt0 remaining_amps ++ "A margin remaining. Consider upgrade.")))
  else if 60 < utilization then
    "APPROVE WITH CAUTION - Service at " ++
      (pyFmt0 utilization ++
        ("% utilization. " ++ (pyFmt0 remaining_amps ++ "A remaining.")))
  else
    "APPROVE - Service has adequate capacity. " ++
      (pyFmt0 remaining_amps ++ "A remaining after change.")

/-- The result record of `check_service_capacity` (database.py lines
335-349), field names as the dict keys. -/
structure CapacityCheck where
  can_proceed : Bool
  requires_service_upgrade : Bool
  warning : Bool
  service_size_amps : ℚ
  current_load_amps : ℚ
  proposed_additional_amps : ℚ
  new_total_amps : ℚ
  available_before_change_amps : ℚ
  remaining_after_change_amps : ℚ
  current_utilization_percent : ℚ
  new_utilization_percent : ℚ
  recommended_service_size : Option ℚ
  verdict : String

/-- Models `check_service_capacity` (database.py lines 289-352) on a present
service state.  The database fetch and its error path are outside the
modelled engine; the claims quantify over fetched states. -/
def check_service_capacity (s : ServiceInput) (additional_load_amps : ℚ) : CapacityCheck :=
  { can_proceed := decide (new_utilization s additional_load_amps ≤ 80)
    requires_service_upgrade := decide (100 < new_utilization s additional_load_amps)
    warning := decide (80 < new_utilization s additional_load_amps ∧
      new_utilization s additional_load_amps ≤ 100)
    service_size_amps := s.service_size
    current_load_amps := pyRound 1 (svc_current_load_amps s)
    proposed_additional_amps := additional_load_amps
    new_total_amps := pyRound 1 (new_total_amps s additional_load_amps)
    available_before_change_amps := pyRound 1 (s.service_size - svc_current_load_amps s)
    remaining_after_change_amps := pyRound 1 (remaining_after_change s additional_load_amps)
    current_utilization_percent := pyRound 1 (utilization_percent s)
    new_utilization_percent := pyRound 1 (new_utilization s additional_load_amps)
    recommended_service_size :=
      if 100 < new_utilization s additional_load_amps then
        some (_get_recommended_service_size (new_total_amps s additional_load_amps))
      else none
    verdict := _get_capacity_verdict (new_utilization s additional_load_amps)
      (remaining_after_change s additional_load_amps) }

/-- The conductor-size → circular-mils table of `calculate_voltage_drop`
(change_impact.py lines 270-284). -/
def conductorTable : List (String × ℚ) :=
  [("#14", 4110), ("#12", 6530), ("#10", 10380), ("#8", 16510),
   ("#6", 26240), ("#4", 41740), ("#3", 52620), ("#2", 66360),
   ("#1", 83690), ("#1/0", 105600), ("#2/0", 133100), ("#3/0", 167800),
   ("#4/0", 211600)]

/-- Models `conductor_cmil.get(conductor_size, 105600)` (change_impact.py line
286): table lookup defaulting to the `#1/0` area. -/
def conductor_cmil (conductor_size : String) : ℚ :=
  (conductorTable.lookup conductor_size).getD 105600

/-- Models `calculate_voltage_drop` (change_impact.py lines 248-294).  `voltage` is
a Python `int`; the source divides by it unguarded, so `voltage = 0` raises
`ZeroDivisionError`, modelled as `none`. -/
def calculate_voltage_drop (conductor_size : String) (length_feet load_amps : ℚ)
    (voltage : ℤ) : Option ℚ :=
  if voltage = 0 then none
  else
    some (pyRound 2
      ((129 / 10 * load_amps * length_feet / conductor_cmil conductor_size) /
        (voltage : ℚ) * 100))

/-- A feeder row as consumed by `check_voltage_drop_compliance`
(predictive.py); `none` models a missing dict key. -/
structure Feeder where
  name : Option String
  voltage_drop_percent : Option ℚ

/-- One violation record appended by `check_voltage_drop_compliance`
(predictive.py lines 198-207), field names as the dict keys. -/
structure VDViolation where
  feeder : String
  voltage_drop : ℚ
  limit : ℚ
  article : String
  severity : String

/-- The per-feeder body of the `check_voltage_drop_compliance` loop
(predictive.py lines 195-207): `some` a violation when the recorded drop
exceeds 3, else `none`. -/
def feeder_violation (f : Feeder) : Option VDViolation :=
  let vdrop := f.voltage_drop_percent.getD 0
  if 3 < vdrop then
    some { feeder := f.name.getD "Unknown"
           voltage_drop := vdrop
           limit := 3
           article := "NEC 210.19(A) / 215.2(A)(1)"
           severity := if 5 < vdrop then "High" else "Medium" }
  else none

/-- Models `check_voltage_drop_compliance` (predictive.py lines 180-209): the
in-order list of violations over all feeders. -/
def check_voltage_drop_compliance (feeders : List Feeder) : List VDViolation :=
  feeders.filterMap feeder_violation

/-! Section: Helper lemmas -/

/-- Monotonicity of `pyRound`: Python decimal rounding preserves order. -/
theorem pyRound_le_pyRound (n : ℕ) {x y : ℚ} (h : x ≤ y) :
    pyRound n x ≤ pyRound n y := by
  have hp : (0 : ℚ) < 10 ^ n := by positivity
  have h1 : round (x * 10 ^ n) ≤ round (y * 10 ^ n) := by
    rw [round_eq, round_eq]
    exact Int.floor_mono (by nlinarith)
  unfold pyRound
  exact (div_le_div_iff_of_pos_right hp).mpr (by exact_mod_cast h1)

/-! Section: C1: admission, warning and upgrade flags of check_service_capacity -/

/-- C1: for every service state with positive capacity and every proposed
additional load, `check_service_capacity` sets `requires_service_upgrade`
exactly when the (unrounded) new utilization exceeds 100, `warning` exactly
on the half-open band (80, 100], and `can_proceed` exactly when it is at
most 80; in the (80, 100] band `can_proceed` is false while
`requires_service_upgrade` is still false, so the two flags are distinct. -/
theorem check_service_capacity_flags (s : ServiceInput) (a : ℚ)
    (h : 0 < service_capacity_va s) :
    ((check_service_capacity s a).requires_service_upgrade = true ↔
        100 < new_utilization s a) ∧
    ((check_service_capacity s a).warning = true ↔
        80 < new_utilization s a ∧ new_utilization s a ≤ 100) ∧
    ((check_service_capacity s a).can_proceed = true ↔ new_utilization s a ≤ 80) ∧
    (80 < new_utilization s a → new_utilization s a ≤ 100 →
      (check_service_capacity s a).can_proceed = false ∧
      (check_service_capacity s a).requires_service_upgrade = false) := by
  refine ⟨?_, ?_, ?_, fun h1 h2 => ⟨?_, ?_⟩⟩
  · simp only [check_service_capacity, decide_eq_true_eq]
  · simp only [check_service_capacity, decide_eq_true_eq]
  · simp only [check_service_capacity, decide_eq_true_eq]
  · simp only [check_service_capacity, decide_eq_false_iff_not, not_le]
    linarith
  · simp only [check_service_capacity, decide_eq_false_iff_not, not_lt]
    linarith

set_option maxRecDepth 4000 in
/-- Witness for C1 at a concrete positive-capacity state. -/
theorem check_service_capacity_flags_witness :
    0 < service_capacity_va ⟨200, 240, 1, 0⟩ ∧
    (((check_service_capacity ⟨200, 240, 1, 0⟩ 0).requires_service_upgrade = true ↔
        100 < new_utilization ⟨200, 240, 1, 0⟩ 0) ∧
    ((check_service_capacity ⟨200, 240, 1, 0⟩ 0).warning = true ↔
        80 < new_utilization ⟨200, 240, 1, 0⟩ 0 ∧
          new_utilization ⟨200, 240, 1, 0⟩ 0 ≤ 100) ∧
    ((check_service_capacity ⟨200, 240, 1, 0⟩ 0).can_proceed = true ↔
        new_utilization ⟨200, 240, 1, 0⟩ 0 ≤ 80) ∧
    (80 < new_utilization ⟨200, 240, 1, 0⟩ 0 →
      new_utilization ⟨200, 240, 1, 0⟩ 0 ≤ 100 →
      (check_service_capacity ⟨200, 240, 1, 0⟩ 0).can_proceed = false ∧
      (check_service_capacity ⟨200, 240, 1, 0⟩ 0).requires_service_upgrade = false)) :=
  ⟨by with_unfolding_all decide,
    check_service_capacity_flags ⟨200, 240, 1, 0⟩ 0 (by with_unfolding_all decide)⟩

/-! Section: C6: panel status thresholds use the unrounded utilization -/

/-- C6: for every panel and circuit list, the status is "OK" iff the
unrounded utilization u is below 80, "WARNING" iff 80 ≤ u < 100,
"OVERLOADED" iff u ≥ 100, and `can_add_load` is true iff u < 80 — all
compared on the unrounded value — while the reported percentage field is the
one-decimal rounding of u. -/
theorem get_panel_utilization_status (panel : Panel) (circuits : List Circuit) :
    ((get_panel_utilization panel circuits).status = "OK" ↔
        panel_utilization_percent panel circuits < 80) ∧
    ((get_panel_utilization panel circuits).status = "WARNING" ↔
        80 ≤ panel_utilization_percent panel circuits ∧
          panel_utilization_percent panel circuits < 100) ∧
    ((get_panel_utilization panel circuits).status = "OVERLOADED" ↔
        100 ≤ panel_utilization_percent panel circuits) ∧
    ((get_panel_utilization panel circuits).can_add_load = true ↔
        panel_utilization_percent panel circuits < 80) ∧
    (get_panel_utilization panel circuits).utilization_percent =
      pyRound 1 (panel_utilization_percent panel circuits) := by
  refine ⟨?_, ?_, ?_, ?_, ?_⟩
  · simp only [get_panel_utilization]
    split_ifs with h1 h2
    · exact iff_of_true rfl h1
    · exact iff_of_false (by decide) h1
    · exact iff_of_false (by decide) h1
  · simp only [get_panel_utilization]
    split_ifs with h1 h2
    · exact iff_of_false (by decide) (fun hc => absurd h1 (not_lt.mpr hc.1))
    · exact iff_of_true rfl ⟨not_lt.mp h1, h2⟩
    · exact iff_of_false (by decide) (fun hc => h2 hc.2)
  · simp only [get_panel_utilization]
    split_ifs with h1 h2
    · exact iff_of_false (by decide) (fun hc => by linarith)
    · exact iff_of_false (by decide) (fun hc => by linarith)
    · exact iff_of_true rfl (not_lt.mp h2)
  · simp only [get_panel_utilization, decide_eq_true_eq]
  · simp only [get_panel_utilization]

/-! Section: C7: monotonicity of check_service_capacity in the proposed load -/

/-- C7: with the service state fixed (positive voltage and capacity),
increasing the proposed additional load never decreases the reported
`new_utilization_percent` and never increases the reported
`remaining_after_change_amps`. -/
theorem check_service_capacity_monotone (s : ServiceInput) (a₁ a₂ : ℚ)
    (hv : 0 < s.voltage) (hc : 0 < service_capacity_va s) (h : a₁ ≤ a₂) :
    (check_service_capacity s a₁).new_utilization_percent ≤
      (check_service_capacity s a₂).new_utilization_percent ∧
    (check_service_capacity s a₂).remaining_after_change_amps ≤
      (check_service_capacity s a₁).remaining_after_change_amps := by
  have hu : new_utilization s a₁ ≤ new_utilization s a₂ := by
    unfold new_utilization new_total_va
    rw [if_pos hc, if_pos hc]
    have hva : s.total_load_va + a₁ * s.voltage ≤ s.total_load_va + a₂ * s.voltage := by
      nlinarith
    have := (div_le_div_iff_of_pos_right hc).mpr hva
    nlinarith
  have hr : remaining_after_change s a₂ ≤ remaining_after_change s a₁ := by
    unfold remaining_after_change new_total_amps
    linarith
  exact ⟨by simpa [check_service_capacity] using pyRound_le_pyRound 1 hu,
    by simpa [check_service_capacity] using pyRound_le_pyRound 1 hr⟩

set_option maxRecDepth 4000 in
/-- Witness for C7 at a concrete state and load pair. -/
theorem check_service_capacity_monotone_witness :
    (0 < (⟨200, 240, 1, 41280⟩ : ServiceInput).voltage ∧
      0 < service_capacity_va ⟨200, 240, 1, 41280⟩ ∧ (1 : ℚ) ≤ 2) ∧
    ((check_service_capacity ⟨200, 240, 1, 41280⟩ 1).new_utilization_percent ≤
      (check_service_capacity ⟨200, 240, 1, 41280⟩ 2).new_utilization_percent ∧
    (check_service_capacity ⟨200, 240, 1, 41280⟩ 2).remaining_after_change_amps ≤
      (check_service_capacity ⟨200, 240, 1, 41280⟩ 1).remaining_after_change_amps) :=
  ⟨⟨by with_unfolding_all decide, by with_unfolding_all decide, by norm_num⟩,
    check_service_capacity_monotone ⟨200, 240, 1, 41280⟩ 1 2
      (by with_unfolding_all decide) (by with_unfolding_all decide) (by norm_num)⟩

/-! Section: C10: the verdict string is consistent with the boolean flags -/

/-- Whether a constant is a character-prefix of an appended string is
decided by the (at least as long) constant head of the append. -/
theorem string_prefix_append (p h t : String) (hlen : p.data.length ≤ h.data.length) :
    (p.data <+: (h ++ t).data) ↔ p.data <+: h.data := by
  rw [String.data_append]
  exact List.isPrefix_append_of_length hlen

/-- C10: for every positive-capacity service state and additional load, the
verdict string of `check_service_capacity` starts with "REJECT" iff
`requires_service_upgrade` is true, starts with "WARNING" iff `warning` is
true, and when both flags are false it starts with "APPROVE", with the
"APPROVE WITH CAUTION" form exactly when the unrounded new utilization
exceeds 60 (and hence is in (60, 80]); so exactly one of the four verdict
categories occurs. -/
theorem check_service_capacity_verdict_consistent (s : ServiceInput) (a : ℚ)
    (h : 0 < service_capacity_va s) :
    (("REJECT").data <+: (check_service_capacity s a).verdict.data ↔
        (check_service_capacity s a).requires_service_upgrade = true) ∧
    (("WARNING").data <+: (check_service_capacity s a).verdict.data ↔
        (check_service_capacity s a).warning = true) ∧
    ((check_service_capacity s a).requires_service_upgrade = false →
      (check_service_capacity s a).warning = false →
      ("APPROVE").data <+: (check_service_capacity s a).verdict.data ∧
        ((("APPROVE WITH CAUTION").data <+: (check_service_capacity s a).verdict.data) ↔
          60 < new_utilization s a)) := by
  have hverd : (check_service_capacity s a).verdict =
      _get_capacity_verdict (new_utilization s a) (remaining_after_change s a) := rfl
  have hupg : (check_service_capacity s a).requires_service_upgrade =
      decide (100 < new_utilization s a) := rfl
  have hwarn : (check_service_capacity s a).warning =
      decide (80 < new_utilization s a ∧ new_utilization s a ≤ 100) := rfl
  rw [hverd, hupg, hwarn]
  unfold _get_capacity_verdict
  by_cases h1 : 100 < new_utilization s a
  · rw [if_pos h1]
    refine ⟨iff_of_true ?_ (decide_eq_true h1), iff_of_false ?_ ?_, fun hup _ => ?_⟩
    · exact (string_prefix_append _ _ _ (by decide)).mpr (by decide)
    · intro hw
      exact absurd ((string_prefix_append _ _ _ (by decide)).mp hw) (by decide)
    · rw [decide_eq_true_eq]
      rintro ⟨-, hle⟩
      linarith
    · rw [decide_eq_false_iff_not] at hup
      exact absurd h1 hup
  · rw [if_neg h1]
    by_cases h2 : 80 < new_utilization s a
    · rw [if_pos h2]
      refine ⟨iff_of_false ?_ ?_, iff_of_true ?_
        (decide_eq_true ⟨h2, not_lt.mp h1⟩), fun _ hw => ?_⟩
      · intro hp
        exact absurd ((string_prefix_append _ _ _ (by decide)).mp hp) (by decide)
      · rw [decide_eq_true_eq]
        exact h1
      · exact (string_prefix_append _ _ _ (by decide)).mpr (by decide)
      · rw [decide_eq_false_iff_not] at hw
        exact absurd ⟨h2, not_lt.mp h1⟩ hw
    · rw [if_neg h2]
      by_cases h3 : 60 < new_utilization s a
      · rw [if_pos h3]
        refine ⟨iff_of_false ?_ ?_, iff_of_false ?_ ?_, fun _ _ => ⟨?_, iff_of_true ?_ h3⟩⟩
        · intro hp
          exact absurd ((string_prefix_append _ _ _ (by decide)).mp hp) (by decide)
        · rw [decide_eq_true_eq]
          exact h1
        · intro hp
          exact absurd ((string_prefix_append _ _ _ (by decide)).mp hp) (by decide)
        · rw [decide_eq_true_eq]
          rintro ⟨hc, -⟩
          exact h2 hc
        · exact (string_prefix_append _ _ _ (by decide)).mpr (by decide)
        · exact (string_prefix_append _ _ _ (by decide)).mpr (by decide)
      · rw [if_neg h3]
        refine ⟨iff_of_false ?_ ?_, iff_of_false ?_ ?_, fun _ _ => ⟨?_, iff_of_false ?_ h3⟩⟩
        · intro hp
          exact absurd ((string_prefix_append _ _ _ (by decide)).mp hp) (by decide)
        · rw [decide_eq_true_eq]
          exact h1
        · intro hp
          exact absurd ((string_prefix_append _ _ _ (by decide)).mp hp) (by decide)
        · rw [decide_eq_true_eq]
          rintro ⟨hc, -⟩
          exact h2 hc
        · exact (string_prefix_append _ _ _ (by decide)).mpr (by decide)
        · intro hp
          exact absurd ((string_prefix_append _ _ _ (by decide)).mp hp) (by decide)

set_option maxRecDepth 8000 in
/-- Witness for C10 at the concrete overloaded scenario. -/
theorem check_service_capacity_verdict_consistent_witness :
    0 < service_capacity_va ⟨200, 240, 1, 41280⟩ ∧
    (("REJECT").data <+: (check_service_capacity ⟨200, 240, 1, 41280⟩ 48).verdict.data ↔
      (check_service_capacity ⟨200, 240, 1, 41280⟩ 48).requires_service_upgrade = true) :=
  ⟨by with_unfolding_all decide,
    (check_service_capacity_verdict_consistent ⟨200, 240, 1, 41280⟩ 48
      (by with_unfolding_all decide)).1⟩

/-! Section: C2: the recommended service size -/

/-- On a sorted list, `find?` with a lower-bound test returns the least
qualifying element; `none` means no element qualifies. -/
theorem find?_threshold_spec (req : ℚ) (l : List ℚ) (hs : l.Sorted (· ≤ ·)) :
    (∀ y, l.find? (fun size => decide (req ≤ size)) = some y →
      y ∈ l ∧ req ≤ y ∧ ∀ x ∈ l, req ≤ x → y ≤ x) ∧
    (l.find? (fun size => decide (req ≤ size)) = none → ∀ x ∈ l, ¬ req ≤ x) := by
  induction l with
  | nil =>
    exact ⟨fun y hy => by simp [List.find?] at hy, fun _ x hx => by simp at hx⟩
  | cons a t ih =>
    rcases List.sorted_cons.mp hs with ⟨ha, ht⟩
    rcases ih ht with ⟨ihs, ihn⟩
    by_cases hq : req ≤ a
    · refine ⟨fun y hy => ?_, fun hn => ?_⟩
      · rw [@List.find?_cons_of_pos ℚ (fun size => decide (req ≤ size)) a t (decide_eq_true hq)] at hy
        cases hy
        refine ⟨List.mem_cons_self a t, hq, fun x hx _ => ?_⟩
        rcases List.mem_cons.mp hx with rfl | hx
        · exact le_refl x
        · exact ha x hx
      · rw [@List.find?_cons_of_pos ℚ (fun size => decide (req ≤ size)) a t (decide_eq_true hq)] at hn
        cases hn
    · refine ⟨fun y hy => ?_, fun hn x hx hrx => ?_⟩
      · rw [@List.find?_cons_of_neg ℚ (fun size => decide (req ≤ size)) a t (by simpa using hq)] at hy
        rcases ihs y hy with ⟨hmem, hreq, hmin⟩
        refine ⟨List.mem_cons_of_mem a hmem, hreq, fun x hx hrx => ?_⟩
        rcases List.mem_cons.mp hx with rfl | hx
        · exact absurd hrx hq
        · exact hmin x hx hrx
      · rw [@List.find?_cons_of_neg ℚ (fun size => decide (req ≤ size)) a t (by simpa using hq)] at hn
        rcases List.mem_cons.mp hx with rfl | hx
        · exact hq hrx
        · exact ihn hn x hx hrx

/-- Models `_get_recommended_service_size` returns a ladder element that is the
least one at or above `required_amps / 0.8` whenever that bound is within
the ladder, is capped at 1200 otherwise, and dominates `required_amps`
itself whenever `required_amps ≤ 1200`. -/
theorem _get_recommended_service_size_spec (r : ℚ) :
    _get_recommended_service_size r ∈ standard_sizes ∧
    (r / (8 / 10) ≤ 1200 →
      r / (8 / 10) ≤ _get_recommended_service_size r ∧
      ∀ x ∈ standard_sizes, r / (8 / 10) ≤ x → _get_recommended_service_size r ≤ x) ∧
    (1200 < r / (8 / 10) → _get_recommended_service_size r = 1200) ∧
    (r ≤ 1200 → r ≤ _get_recommended_service_size r) := by
  have hsort : standard_sizes.Sorted (· ≤ ·) := by decide
  have hspec := find?_threshold_spec (r / (8 / 10)) standard_sizes hsort
  have hcap : ∀ x ∈ standard_sizes, x ≤ 1200 := by decide
  have hlow : ∀ x ∈ standard_sizes, (100 : ℚ) ≤ x := by decide
  have hgrow : r / (8 / 10) = 5 / 4 * r := by ring
  cases hfind : standard_sizes.find? (fun size => decide (r / (8 / 10) ≤ size)) with
  | none =>
    have hnone := hspec.2 hfind
    have hres : _get_recommended_service_size r = 1200 := by
      show (standard_sizes.find? (fun size => decide (r / (8 / 10) ≤ size))).getD 1200 = 1200
      rw [hfind]
      rfl
    have h1200 : ¬ (r / (8 / 10) ≤ 1200) := hnone 1200 (by decide)
    exact ⟨by rw [hres]; decide, fun hle => absurd hle h1200, fun _ => hres,
      fun hr => by rw [hres]; exact hr⟩
  | some y =>
    rcases hspec.1 y hfind with ⟨hmem, hreq, hmin⟩
    have hres : _get_recommended_service_size r = y := by
      show (standard_sizes.find? (fun size => decide (r / (8 / 10) ≤ size))).getD 1200 = y
      rw [hfind]
      rfl
    rw [hres]
    refine ⟨hmem, fun _ => ⟨hreq, hmin⟩,
      fun hgt => absurd (hreq.trans (hcap y hmem)) (not_le.mpr hgt),
      fun hr => ?_⟩
    rcases le_or_lt 0 r with hr0 | hr0
    · have : r ≤ r / (8 / 10) := by rw [hgrow]; linarith
      exact this.trans hreq
    · exact le_trans (le_of_lt (lt_of_lt_of_le hr0 (by norm_num))) (hlow y hmem)

set_option maxRecDepth 8000 in
/-- Counterexample for C2 as frozen: at service 200 A / 240 V single phase
with no existing load and a proposed 1500 A, the upgrade is required, the
recommendation is the 1200 cap, and 1200 is strictly below the new total of
1500 A — so the claim that the recommended size is at least new_total_amps
fails. -/
theorem check_service_capacity_recommended_cex :
    (check_service_capacity ⟨200, 240, 1, 0⟩ 1500).requires_service_upgrade = true ∧
    (check_service_capacity ⟨200, 240, 1, 0⟩ 1500).recommended_service_size = some 1200 ∧
    new_total_amps ⟨200, 240, 1, 0⟩ 1500 = 1500 ∧
    ¬ (new_total_amps ⟨200, 240, 1, 0⟩ 1500 ≤ 1200) := by
  with_unfolding_all decide

/-- C2 (amended): whenever `check_service_capacity` requires a service
upgrade, the recommended size is the least ladder element at or above
new_total_amps / 0.8 whenever that quotient is within the ladder, and the
1200 cap otherwise; it is at least `new_total_amps` whenever
`new_total_amps ≤ 1200`, but the cap can fall below larger new totals. -/
theorem check_service_capacity_recommended (s : ServiceInput) (a : ℚ)
    (hup : (check_service_capacity s a).requires_service_upgrade = true) :
    (check_service_capacity s a).recommended_service_size =
      some (_get_recommended_service_size (new_total_amps s a)) ∧
    _get_recommended_service_size (new_total_amps s a) ∈ standard_sizes ∧
    (new_total_amps s a / (8 / 10) ≤ 1200 →
      new_total_amps s a / (8 / 10) ≤
        _get_recommended_service_size (new_total_amps s a) ∧
      ∀ x ∈ standard_sizes, new_total_amps s a / (8 / 10) ≤ x →
        _get_recommended_service_size (new_total_amps s a) ≤ x) ∧
    (1200 < new_total_amps s a / (8 / 10) →
      _get_recommended_service_size (new_total_amps s a) = 1200) ∧
    (new_total_amps s a ≤ 1200 →
      new_total_amps s a ≤ _get_recommended_service_size (new_total_amps s a)) := by
  have h100 : 100 < new_utilization s a := by
    have hd : (check_service_capacity s a).requires_service_upgrade =
        decide (100 < new_utilization s a) := rfl
    rw [hd, decide_eq_true_eq] at hup
    exact hup
  have hrec : (check_service_capacity s a).recommended_service_size =
      if 100 < new_utilization s a then
        some (_get_recommended_service_size (new_total_amps s a))
      else none := rfl
  rcases _get_recommended_service_size_spec (new_total_amps s a) with ⟨h1, h2, h3, h4⟩
  exact ⟨by rw [hrec, if_pos h100], h1, h2, h3, h4⟩

set_option maxRecDepth 8000 in
/-- Witness for the amended C2 at the concrete overloaded scenario. -/
theorem check_service_capacity_recommended_witness :
    (check_service_capacity ⟨200, 240, 1, 41280⟩ 48).requires_service_upgrade = true ∧
    (check_service_capacity ⟨200, 240, 1, 41280⟩ 48).recommended_service_size =
      some (_get_recommended_service_size (new_total_amps ⟨200, 240, 1, 41280⟩ 48)) :=
  ⟨by with_unfolding_all decide,
    (check_service_capacity_recommended ⟨200, 240, 1, 41280⟩ 48
      (by with_unfolding_all decide)).1⟩

/-! Section: C3: the 200 A / 41280 VA / +48 A scenario -/

set_option maxRecDepth 8000 in
/-- Counterexample for C3 as frozen: on the Scenario A input the new
utilization is exactly 110.0 percent (rounded and unrounded), not
approximately 114.6: the gap to the claimed value is a full 4.6 points. -/
theorem scenarioA_new_utilization_cex :
    (check_service_capacity ⟨200, 240, 1, 41280⟩ 48).new_utilization_percent = 110 ∧
    new_utilization ⟨200, 240, 1, 41280⟩ 48 = 110 ∧
    |(110 : ℚ) - 1146 / 10| = 46 / 10 := by
  with_unfolding_all decide

set_option maxRecDepth 8000 in
/-- C3 (amended): on service_size 200 A, 240 V, single phase,
current_load_va 41280 (172 A) and 48 additional amps,
`check_service_capacity` reports 86 percent current utilization,
new_total_amps 220, new utilization 110.0 percent (not 114.6), a REJECT
verdict with `requires_service_upgrade`, and recommended size 320 A — the
smallest standard size at or above 275 A (= 220 / 0.8). -/
theorem scenarioA_check :
    (check_service_capacity ⟨200, 240, 1, 41280⟩ 48).current_utilization_percent = 86 ∧
    (check_service_capacity ⟨200, 240, 1, 41280⟩ 48).current_load_amps = 172 ∧
    (check_service_capacity ⟨200, 240, 1, 41280⟩ 48).new_total_amps = 220 ∧
    (check_service_capacity ⟨200, 240, 1, 41280⟩ 48).new_utilization_percent = 110 ∧
    (check_service_capacity ⟨200, 240, 1, 41280⟩ 48).requires_service_upgrade = true ∧
    (check_service_capacity ⟨200, 240, 1, 41280⟩ 48).can_proceed = false ∧
    (check_service_capacity ⟨200, 240, 1, 41280⟩ 48).recommended_service_size = some 320 ∧
    new_total_amps ⟨200, 240, 1, 41280⟩ 48 / (8 / 10) = 275 ∧
    ("REJECT").data <+: (check_service_capacity ⟨200, 240, 1, 41280⟩ 48).verdict.data := by
  with_unfolding_all decide

/-! Section: C4: service aggregation vs the per-panel load step -/

/-- Counterexample for C4 as frozen: a project with one panel holding one
circuit that has no load_va but load_watts 100.  The service aggregation
path resolves the circuit to 0 (no watts fallback) while the per-panel path
resolves it to 100, so the two paths differ. -/
theorem service_total_load_va_cex :
    service_total_load_va [[⟨none, some 100, none⟩]] = 0 ∧
    panel_current_load_va [⟨none, some 100, none⟩] = 100 ∧
    service_total_load_va [[⟨none, some 100, none⟩]] ≠
      ([[(⟨none, some 100, none⟩ : Circuit)]].map panel_current_load_va).sum := by
  with_unfolding_all decide

/-- C4 (amended): the aggregation path resolves each circuit as load_va
defaulting to 0, without the watts fallback of the per-panel path; the two paths
agree exactly on projects in which every circuit either carries a load_va
value or has a missing-or-zero load_watts value. -/
theorem service_total_load_va_eq (panels : List (List Circuit))
    (h : ∀ cs ∈ panels, ∀ c ∈ cs, c.load_va ≠ none ∨ c.load_watts.getD 0 = 0) :
    service_total_load_va panels = (panels.map panel_current_load_va).sum := by
  unfold service_total_load_va
  refine congrArg List.sum (List.map_congr_left fun cs hcs => ?_)
  unfold calculate_total_panel_load panel_current_load_va
  refine congrArg List.sum (List.map_congr_left fun c hc => ?_)
  rcases h cs hcs c hc with hva | hw
  · cases hva2 : c.load_va with
    | none => exact absurd hva2 hva
    | some v => simp [hva2]
  · cases hva2 : c.load_va with
    | none => simp [hva2, hw]
    | some v => simp [hva2]

/-- Witness for the amended C4 on a concrete two-circuit project meeting the
side condition. -/
theorem service_total_load_va_eq_witness :
    (∀ cs ∈ [[(⟨some 1200, some 300, some 1⟩ : Circuit), ⟨none, none, none⟩]],
      ∀ c ∈ cs, c.load_va ≠ none ∨ c.load_watts.getD 0 = 0) ∧
    service_total_load_va [[⟨some 1200, some 300, some 1⟩, ⟨none, none, none⟩]] =
      ([[(⟨some 1200, some 300, some 1⟩ : Circuit),
          ⟨none, none, none⟩]].map panel_current_load_va).sum :=
  ⟨by with_unfolding_all decide,
    service_total_load_va_eq [[⟨some 1200, some 300, some 1⟩, ⟨none, none, none⟩]]
      (by with_unfolding_all decide)⟩

/-! Section: C5: behaviour of the voltage-drop calculator at a zero denominator -/

set_option maxRecDepth 8000 in
/-- Counterexample for C5 as frozen: at voltage 0 the calculator raises a
division fault (modelled `none`) instead of yielding zero, and at voltage
−240 it yields the negative formula value −0.82, not zero. -/
theorem calculate_voltage_drop_zero_cex :
    calculate_voltage_drop "#6" 100 40 0 = none ∧
    calculate_voltage_drop "#6" 100 40 (-240) = some (-(41 / 50)) ∧
    (-(41 / 50) : ℚ) ≠ 0 := by
  have hc : conductor_cmil "#6" = 26240 := by decide
  refine ⟨by unfold calculate_voltage_drop; rw [if_pos rfl], ?_, by norm_num⟩
  unfold calculate_voltage_drop
  rw [if_neg (by decide : (-240 : ℤ) ≠ 0), hc]
  with_unfolding_all decide

/-- C5 (amended): `calculate_voltage_drop` divides by its voltage argument
unguarded, so it faults exactly at voltage 0 and is total elsewhere
(negative voltages included, where the result carries the sign); the
treat-zero-denominator-as-zero policy of the claim exists in the
database.py utilization calculators, not in this function. -/
theorem calculate_voltage_drop_fault (size : String) (len amps : ℚ) (v : ℤ)
    (hv : v ≠ 0) :
    calculate_voltage_drop size len amps 0 = none ∧
    (calculate_voltage_drop size len amps v).isSome = true := by
  constructor
  · unfold calculate_voltage_drop
    rw [if_pos rfl]
  · unfold calculate_voltage_drop
    rw [if_neg hv]
    rfl

/-- Witness for the amended C5 at a concrete nonzero voltage. -/
theorem calculate_voltage_drop_fault_witness :
    (240 : ℤ) ≠ 0 ∧
    (calculate_voltage_drop "#6" 100 40 0 = none ∧
      (calculate_voltage_drop "#6" 100 40 240).isSome = true) :=
  ⟨by decide, calculate_voltage_drop_fault "#6" 100 40 240 (by decide)⟩

/-! Section: C8: the voltage-drop formula for positive voltage -/

set_option maxRecDepth 8000 in
/-- C8: for every conductor-size string, length, load and positive voltage,
the calculator returns the two-decimal rounding of
((12.9 × load × length) / cmil) / voltage × 100 with cmil taken from the
table and defaulting to 105600 (the #1/0 area) on unknown designators, never
faulting on unknown input; zero length or zero load yields 0 percent, and
#6 / 100 ft / 40 A / 240 V yields 0.82. -/
theorem calculate_voltage_drop_formula :
    (∀ (size : String) (len amps : ℚ) (v : ℤ), 0 < v →
      calculate_voltage_drop size len amps v =
        some (pyRound 2 ((129 / 10 * amps * len / conductor_cmil size) /
          (v : ℚ) * 100)) ∧
      ((len = 0 ∨ amps = 0) → calculate_voltage_drop size len amps v = some 0)) ∧
    (∀ size, conductorTable.lookup size = none → conductor_cmil size = 105600) ∧
    conductor_cmil "#weird" = 105600 ∧
    calculate_voltage_drop "#6" 100 40 240 = some (41 / 50) := by
  have hzero : ∀ n, pyRound n 0 = 0 := by
    intro n
    unfold pyRound
    norm_num
  have hc : conductor_cmil "#6" = 26240 := by decide
  refine ⟨fun size len amps v hv => ⟨?_, ?_⟩, fun size h => ?_,
    by decide, ?_⟩
  · unfold calculate_voltage_drop
    rw [if_neg (ne_of_gt hv)]
  · intro hz
    unfold calculate_voltage_drop
    rw [if_neg (ne_of_gt hv)]
    have harg : (129 / 10 * amps * len / conductor_cmil size) / (v : ℚ) * 100 = 0 := by
      rcases hz with rfl | rfl <;> ring
    rw [harg, hzero]
  · unfold conductor_cmil
    rw [h]
    rfl
  · unfold calculate_voltage_drop
    rw [if_neg (by decide : (240 : ℤ) ≠ 0), hc]
    with_unfolding_all decide

/-- Witness for C8 at the concrete Scenario D inputs. -/
theorem calculate_voltage_drop_formula_witness :
    0 < (240 : ℤ) ∧
    calculate_voltage_drop "#6" 100 40 240 =
      some (pyRound 2 ((129 / 10 * 40 * 100 / conductor_cmil "#6") /
        ((240 : ℤ) : ℚ) * 100)) :=
  ⟨by decide, (calculate_voltage_drop_formula.1 "#6" 100 40 240 (by decide)).1⟩

/-! Section: C9: feeder voltage-drop compliance -/

/-- C9: a feeder is reported as a violation iff its recorded
voltage_drop_percent exceeds 3.0 (feeders at or below 3.0 are never
reported); every reported violation carries the feeder name, the measured
drop, the 3.0 limit and the fixed code-reference tag, with severity "High"
exactly when the drop exceeds 5.0 and "Medium" otherwise. -/
theorem check_voltage_drop_compliance_spec (feeders : List Feeder) :
    (∀ v, v ∈ check_voltage_drop_compliance feeders ↔
      ∃ f ∈ feeders, 3 < f.voltage_drop_percent.getD 0 ∧
        v = { feeder := f.name.getD "Unknown"
              voltage_drop := f.voltage_drop_percent.getD 0
              limit := 3
              article := "NEC 210.19(A) / 215.2(A)(1)"
              severity :=
                if 5 < f.voltage_drop_percent.getD 0 then "High" else "Medium" }) ∧
    (∀ f ∈ feeders, f.voltage_drop_percent.getD 0 ≤ 3 → feeder_violation f = none) ∧
    (∀ v ∈ check_voltage_drop_compliance feeders,
      v.limit = 3 ∧ v.article = "NEC 210.19(A) / 215.2(A)(1)" ∧
      3 < v.voltage_drop ∧
      ((v.severity = "High") ↔ 5 < v.voltage_drop) ∧
      ((v.severity = "Medium") ↔ v.voltage_drop ≤ 5)) := by
  have hfv : ∀ (f : Feeder) (v : VDViolation), feeder_violation f = some v ↔
      (3 < f.voltage_drop_percent.getD 0 ∧
        v = { feeder := f.name.getD "Unknown"
              voltage_drop := f.voltage_drop_percent.getD 0
              limit := 3
              article := "NEC 210.19(A) / 215.2(A)(1)"
              severity :=
                if 5 < f.voltage_drop_percent.getD 0 then "High" else "Medium" }) := by
    intro f v
    by_cases h3 : 3 < f.voltage_drop_percent.getD 0
    · simp only [feeder_violation]
      rw [if_pos h3]
      constructor
      · intro hsome
        exact ⟨h3, (Option.some.inj hsome).symm⟩
      · rintro ⟨-, rfl⟩
        rfl
    · simp only [feeder_violation]
      rw [if_neg h3]
      constructor
      · intro hsome
        cases hsome
      · rintro ⟨hc, -⟩
        exact absurd hc h3
  refine ⟨fun v => ?_, fun f _ hle => ?_, fun v hv => ?_⟩
  · rw [check_voltage_drop_compliance, List.mem_filterMap]
    exact exists_congr fun f => and_congr_right fun _ => hfv f v
  · simp only [feeder_violation]
    rw [if_neg (not_lt.mpr hle)]
  · rw [check_voltage_drop_compliance, List.mem_filterMap] at hv
    rcases hv with ⟨f, hf, hfeq⟩
    rcases (hfv f v).mp hfeq with ⟨h3, rfl⟩
    refine ⟨rfl, rfl, h3, ?_, ?_⟩
    · show (if 5 < f.voltage_drop_percent.getD 0 then "High" else "Medium") = "High" ↔
        5 < f.voltage_drop_percent.getD 0
      by_cases h5 : 5 < f.voltage_drop_percent.getD 0
      · rw [if_pos h5]
        exact iff_of_true rfl h5
      · rw [if_neg h5]
        exact iff_of_false (by decide) h5
    · show (if 5 < f.voltage_drop_percent.getD 0 then "High" else "Medium") = "Medium" ↔
        f.voltage_drop_percent.getD 0 ≤ 5
      by_cases h5 : 5 < f.voltage_drop_percent.getD 0
      · rw [if_pos h5]
        exact iff_of_false (by decide) (not_le.mpr h5)
      · rw [if_neg h5]
        exact iff_of_true rfl (not_lt.mp h5)

/-- Witness for C9: a feeder recorded at 2 percent is not reported. -/
theorem check_voltage_drop_compliance_witness :
    (⟨some "F2", some 2⟩ : Feeder) ∈ [(⟨some "F2", some 2⟩ : Feeder)] ∧
    feeder_violation ⟨some "F2", some 2⟩ = none :=
  ⟨List.mem_singleton.mpr rfl,
    (check_voltage_drop_compliance_spec [⟨some "F2", some 2⟩]).2.1
      ⟨some "F2", some 2⟩ (List.mem_singleton.mpr rfl) (by decide)⟩
